import Mathlib

/-!
# Verification of the simulation core of `ultramario4k.py`

Shallow embedding of the data model and the operations of the game's
simulation core: axis-aligned rectangles and overlap, the per-enemy
contact resolution of `Game.handle_collisions`, the damage / respawn /
game-over lifecycle (`Game.take_damage`, `Game.respawn`, `Game.game_over`),
coin collection, projectile bouncing, level completion, the camera filter
and the kinematic platform update.  Python `float` quantities are modelled
as rationals; `pygame.Rect` coordinates are integers.
-/

namespace UltraMario4k

/-- `SCREEN_WIDTH = 1024` from the source constants. -/
def SCREEN_WIDTH : ℤ := 1024

/-- `SCREEN_HEIGHT = 768` from the source constants. -/
def SCREEN_HEIGHT : ℤ := 768

/-- `JUMP_STRENGTH = -16` from the source constants. -/
def JUMP_STRENGTH : ℤ := -16

/-- `PowerUpType` enumeration from the source. -/
inductive PowerUpType where
  | NONE
  | MUSHROOM
  | FIRE_FLOWER
  | STAR
  | ICE_FLOWER
deriving DecidableEq, Repr

/-- Top-level `game_state` strings of `Game` ("MENU", "PLAYING", "GAME_OVER", "VICTORY"). -/
inductive GameMode where
  | MENU
  | PLAYING
  | GAME_OVER
  | VICTORY
deriving DecidableEq, Repr

/-- A `pygame.Rect`: integer position and extents. -/
structure Rect where
  x : ℤ
  y : ℤ
  w : ℤ
  h : ℤ
deriving DecidableEq, Repr

/-- `rect.right = x + w`. -/
def Rect.right (r : Rect) : ℤ := r.x + r.w

/-- `rect.bottom = y + h`. -/
def Rect.bottom (r : Rect) : ℤ := r.y + r.h

/-- `rect.centery = y + h / 2` (integer division; heights are non-negative). -/
def Rect.centery (r : Rect) : ℤ := r.y + r.h / 2

/-- `pygame.Rect.colliderect`: strict overlap on both axes (touching edges
do not collide). -/
def colliderect (a b : Rect) : Bool :=
  decide (a.x < b.right) && decide (b.x < a.right) &&
  decide (a.y < b.bottom) && decide (b.y < a.bottom)

/-- Outcome of one player-vs-enemy contact test in `Game.handle_collisions`:
the body of `for enemy in self.world.enemies:`. -/
inductive EnemyOutcome where
  | stomp
  | invincibleKill
  | damage
  | noContact
deriving DecidableEq, Repr

/-- The branch selected by the enemy-contact code of `Game.handle_collisions`:
dead enemies are skipped (`if not enemy.alive: continue`); on overlap, the
stomp branch (`player.vy > 0 and player.rect.bottom < enemy.rect.centery`)
is tested first, then the invincibility branch (`player.invincible_timer > 0`),
else `take_damage`. -/
def resolveEnemy (alive : Bool) (prect : Rect) (pvy : ℚ) (invTimer : ℕ)
    (erect : Rect) : EnemyOutcome :=
  if !alive then .noContact
  else if colliderect prect erect then
    if 0 < pvy ∧ prect.bottom < erect.centery then .stomp
    else if 0 < invTimer then .invincibleKill
    else .damage
  else .noContact

/-- Effects of one enemy contact on the world: whether the enemy is removed
from `world.enemies`, the score delta, whether `take_damage` is invoked, and
the player's resulting `vy` (a stomp sets `vy = JUMP_STRENGTH // 2`). -/
structure EnemyHit where
  removed : Bool
  scoreDelta : ℤ
  damaged : Bool
  newVy : ℚ
deriving DecidableEq, Repr

/-- Effects attached to each branch of the enemy-contact code:
stomp removes the enemy, adds 100 and bounces the player
(`self.player.vy = JUMP_STRENGTH // 2`, i.e. `-8`); the invincibility
branch removes the enemy and adds 200; the remaining branch calls
`take_damage`. -/
def applyEnemy (pvy : ℚ) : EnemyOutcome → EnemyHit
  | .stomp => ⟨true, 100, false, (JUMP_STRENGTH : ℚ) / 2⟩
  | .invincibleKill => ⟨true, 200, false, pvy⟩
  | .damage => ⟨false, 0, true, pvy⟩
  | .noContact => ⟨false, 0, false, pvy⟩

/-- One full player-vs-enemy contact step of `Game.handle_collisions`. -/
def enemyContactStep (alive : Bool) (prect : Rect) (pvy : ℚ) (invTimer : ℕ)
    (erect : Rect) : EnemyHit :=
  applyEnemy pvy (resolveEnemy alive prect pvy invTimer erect)

/-- The simulation state the lifecycle methods of `Game` touch: the player's
rect (position `px, py` and extents `pw, ph`), velocity, power-up, timers
and counters, plus the game's score, high score, world index and mode.
`world.spawn_point` is `(100, 400)` for every world. -/
structure GameState where
  px : ℤ
  py : ℤ
  pw : ℤ
  ph : ℤ
  pvx : ℚ
  pvy : ℚ
  powerUp : PowerUpType
  invincibleTimer : ℕ
  lives : ℤ
  coins : ℕ
  score : ℤ
  highScore : ℤ
  worldIndex : ℕ
  mode : GameMode
deriving DecidableEq, Repr

/-- Sprite width selected by `Player.create_character_sprite`:
`size = (36, 48)` for the mushroom-tier power-ups, `(36, 36)` otherwise —
the width is 36 in both cases. -/
def spriteWidth (_ : PowerUpType) : ℤ := 36

/-- Sprite height selected by `Player.create_character_sprite`: 48 for
MUSHROOM, FIRE_FLOWER and ICE_FLOWER, else 36 (STAR and NONE share the
small 36-high sprite). -/
def spriteHeight (p : PowerUpType) : ℤ :=
  if p = .MUSHROOM ∨ p = .FIRE_FLOWER ∨ p = .ICE_FLOWER then 48 else 36

/-- Rect effect of `Player.create_character_sprite`: the rect is rebuilt at
the sprite size of the current power-up with `centerx` and `bottom`
preserved (`self.rect = self.image.get_rect(); self.rect.centerx =
old_rect.centerx; self.rect.bottom = old_rect.bottom`), so
`x' = x + w/2 - w'/2` and `y' = y + h - h'`. -/
def create_character_sprite (g : GameState) : GameState :=
  let w1 := spriteWidth g.powerUp
  let h1 := spriteHeight g.powerUp
  { g with px := g.px + g.pw / 2 - w1 / 2,
           py := g.py + g.ph - h1,
           pw := w1, ph := h1 }

/-- `Game.game_over`: record the high score and enter the GAME_OVER mode. -/
def game_over (g : GameState) : GameState :=
  { g with highScore := max g.highScore g.score, mode := .GAME_OVER }

/-- `Game.respawn`: move the player to `world.spawn_point = (100, 400)`,
zero the velocity, clear the power-up, rebuild the sprite (and rect), and
grant a 180-tick invincibility window. -/
def respawn (g : GameState) : GameState :=
  let g1 := create_character_sprite
    { g with px := 100, py := 400, pvx := 0, pvy := 0, powerUp := .NONE }
  { g1 with invincibleTimer := 180 }

/-- `Game.take_damage`: if the player holds MUSHROOM, FIRE_FLOWER or
ICE_FLOWER, strip to NONE, set the invincibility timer to 120 and rebuild
the sprite (which resizes the rect); otherwise decrement lives and either
game-over (at `lives <= 0`) or respawn. -/
def take_damage (g : GameState) : GameState :=
  if g.powerUp = .MUSHROOM ∨ g.powerUp = .FIRE_FLOWER ∨ g.powerUp = .ICE_FLOWER then
    create_character_sprite { g with powerUp := .NONE, invincibleTimer := 120 }
  else
    let g1 := { g with lives := g.lives - 1 }
    if g1.lives ≤ 0 then game_over g1 else respawn g1

/-- The fall-out-of-bounds check of `Game.update`:
`if self.player.rect.y > SCREEN_HEIGHT: self.take_damage()`. -/
def fall_check (g : GameState) : GameState :=
  if SCREEN_HEIGHT < g.py then take_damage g else g

/-- One coin collection from `Game.handle_collisions`:
`coins += 1; score += 50; if coins >= 100: coins = 0; lives += 1`.
Returns the updated `(coins, lives, score)`. -/
def collect_coin (coins : ℕ) (lives score : ℤ) : ℕ × ℤ × ℤ :=
  let coins1 := coins + 1
  let score1 := score + 50
  if 100 ≤ coins1 then (0, lives + 1, score1) else (coins1, lives, score1)

/-- `Fireball.__init__(x, y, direction, is_ice)`:
`vx = 10*direction`, `vy = -5`, `bounces = 0`, `max_bounces = 3`. -/
structure Fireball where
  x : ℤ
  y : ℤ
  vx : ℤ
  vy : ℚ
  bounces : ℕ
  maxBounces : ℕ
  isIce : Bool
deriving DecidableEq, Repr

/-- `Fireball.__init__`. -/
def Fireball.mkNew (x y direction : ℤ) (isIce : Bool) : Fireball :=
  { x := x, y := y, vx := 10 * direction, vy := -5,
    bounces := 0, maxBounces := 3, isIce := isIce }

/-- One platform bounce from the fireball loop of `Game.handle_collisions`:
`vy = -8; bounces += 1`, then the projectile is removed when
`bounces >= max_bounces`.  Returns the updated fireball and the removal
flag. -/
def bounceStep (f : Fireball) : Fireball × Bool :=
  let f1 := { f with vy := -8, bounces := f.bounces + 1 }
  (f1, decide (f1.maxBounces ≤ f1.bounces))

/-- The fireball after `n` platform bounces. -/
def bouncesAfter (f : Fireball) : ℕ → Fireball
  | 0 => f
  | n + 1 => (bounceStep (bouncesAfter f n)).1

/-- The removal flag produced by bounce number `n + 1`. -/
def removedOnBounce (f : Fireball) (n : ℕ) : Bool :=
  (bounceStep (bouncesAfter f n)).2

/-- The off-screen removal test of `Game.update`:
`if fireball.rect.x < 0 or fireball.rect.x > self.world.level_width`. -/
def fireballOffscreen (x levelW : ℤ) : Bool :=
  decide (x < 0) || decide (levelW < x)

/-- `len(self.world_themes) = 5`: world indices run 0..4. -/
def NUM_WORLDS : ℕ := 5

/-- `Game.start_world(world_index)`: sets `current_world_index`, rebuilds
the `World` and replaces the player with a fresh `Player` at the spawn
point `(100, 400)` (fresh players have `lives = 3`, `coins = 0`, no
power-up and zero timers and velocity).  Score, high score and mode are
untouched. -/
def start_world (g : GameState) (i : ℕ) : GameState :=
  { g with worldIndex := i, px := 100, py := 400, pw := 36, ph := 36,
           pvx := 0, pvy := 0, powerUp := .NONE, invincibleTimer := 0,
           lives := 3, coins := 0 }

/-- `Game.victory`: record the high score and enter the VICTORY mode. -/
def victory (g : GameState) : GameState :=
  { g with highScore := max g.highScore g.score, mode := .VICTORY }

/-- `Game.complete_level`: add `1000 * (current_world_index + 1)` to the
score, then advance (`start_world(current_world_index + 1)`) while
`current_world_index < len(world_themes) - 1`, else `victory()`. -/
def complete_level (g : GameState) : GameState :=
  let g1 := { g with score := g.score + 1000 * ((g.worldIndex : ℤ) + 1) }
  if g1.worldIndex < NUM_WORLDS - 1 then start_world g1 (g1.worldIndex + 1)
  else victory g1

/-- `World.level_width = 4000 + world_num * 500` (the `World` receives the
1-based `world_index + 1` as `world_num`, so this is at least 4000). -/
def levelWidth (worldNum : ℕ) : ℚ := 4000 + 500 * worldNum

/-- `World.update_camera(player_x)`:
`target = player_x - SCREEN_WIDTH // 2`;
`camera_x += (target - camera_x) * 0.1`;
`camera_x = max(0, min(camera_x, level_width - SCREEN_WIDTH))`.
Python float arithmetic is modelled over the rationals with the smoothing
factor `1/10`. -/
def update_camera (worldNum : ℕ) (camera playerX : ℚ) : ℚ :=
  let target := playerX - (SCREEN_WIDTH : ℚ) / 2
  let moved := camera + (target - camera) * (1 / 10)
  max 0 (min moved (levelWidth worldNum - (SCREEN_WIDTH : ℚ)))

/-- Python float truncation toward zero, as applied when a float value is
stored into an integer `pygame.Rect` coordinate (`int()` semantics). -/
def ratTrunc (q : ℚ) : ℤ := if q < 0 then -⌊-q⌋ else ⌊q⌋

/-- A kinematic `AnimatedPlatform` projected onto its movement axis:
`pos` is the integer `rect.x` (or `rect.y` when `vertical_moving`),
`startPos` the matching integer `start_x`/`start_y`, `move_range` the
integer `randint(100, 200)` draw, `move_speed` the float `uniform(1, 3)`
draw and `direction` the integer sign flipped by `*= -1`. -/
structure Plat where
  pos : ℤ
  startPos : ℤ
  moveRange : ℤ
  moveSpeed : ℚ
  direction : ℤ
deriving DecidableEq, Repr

/-- `AnimatedPlatform.update` for a moving platform along its movement
axis: `rect.pos += move_speed * direction` — the float sum is truncated
toward zero when assigned back to the integer rect coordinate — then
`if abs(pos - start) > move_range: direction *= -1`. -/
def Plat.update (p : Plat) : Plat :=
  let pos1 := ratTrunc ((p.pos : ℚ) + p.moveSpeed * (p.direction : ℚ))
  if p.moveRange < |pos1 - p.startPos| then
    { p with pos := pos1, direction := -p.direction }
  else
    { p with pos := pos1 }

/-- A concrete moving platform: start 0, range 100, whole-number speed 3,
initial direction 1 (the constructor starts platforms at `pos = start`,
`direction = 1`). -/
def examplePlat : Plat := ⟨0, 0, 100, 3, 1⟩

/-- `examplePlat` after `n` ticks of `AnimatedPlatform.update`. -/
def platIter : ℕ → Plat
  | 0 => examplePlat
  | n + 1 => (platIter n).update

/-- A concrete moving platform with fractional speed: start 300, range 104,
speed 2.5, initial direction 1. -/
def fracPlat : Plat := ⟨300, 300, 104, 5 / 2, 1⟩

/-- `fracPlat` after `n` ticks of `AnimatedPlatform.update`. -/
def fracIter : ℕ → Plat
  | 0 => fracPlat
  | n + 1 => (fracIter n).update

/-- `coin_count = 30 + world_num * 10` in `World.generate_level`: the
number of placement rounds of the coin loop. -/
def coinRounds (worldNum : ℕ) : ℕ := 30 + worldNum * 10

/-- Coins placed by the first `n` rounds of the coin loop of
`World.generate_level`, with the draws `random.random() > 0.5` supplied by
the oracle `choice` (`true` = arc round adding a 5-coin arc, `false` =
single scattered coin). -/
def coinsPlaced : ℕ → (ℕ → Bool) → ℕ
  | 0, _ => 0
  | n + 1, choice => coinsPlaced n choice + (if choice n then 5 else 1)

/-- Number of arc rounds among the first `n` rounds. -/
def arcRounds : ℕ → (ℕ → Bool) → ℕ
  | 0, _ => 0
  | n + 1, choice => arcRounds n choice + (if choice n then 1 else 0)

/-- Total coins placed by `World.generate_level` for 1-based world number
`worldNum` under the draw oracle `choice`. -/
def totalCoins (worldNum : ℕ) (choice : ℕ → Bool) : ℕ :=
  coinsPlaced (coinRounds worldNum) choice

/-! ## Theorems -/

/-- Claim C1: whenever the player overlaps a live enemy while falling
(`vy > 0`) with the player's bottom strictly above the enemy's vertical
center, the contact resolves as a stomp: the enemy is removed and the score
increases by exactly 100 (never 200), regardless of the invincibility
timer, and the same contact does not damage the player. -/
theorem C1_stomp_priority (alive : Bool) (prect : Rect) (pvy : ℚ)
    (invTimer : ℕ) (erect : Rect) (halive : alive = true)
    (hov : colliderect prect erect = true)
    (hfall : 0 < pvy) (habove : prect.bottom < erect.centery) :
    resolveEnemy alive prect pvy invTimer erect = .stomp ∧
    (enemyContactStep alive prect pvy invTimer erect).removed = true ∧
    (enemyContactStep alive prect pvy invTimer erect).scoreDelta = 100 ∧
    (enemyContactStep alive prect pvy invTimer erect).scoreDelta ≠ 200 ∧
    (enemyContactStep alive prect pvy invTimer erect).damaged = false := by
  subst halive
  have h : resolveEnemy true prect pvy invTimer erect = .stomp := by
    simp [resolveEnemy, hov, hfall, habove]
  refine ⟨h, ?_, ?_, ?_, ?_⟩ <;> simp [enemyContactStep, h, applyEnemy]

/-- Witness for C1: a concrete falling stomp contact with a positive
invincibility timer (50) still resolves as a stomp worth 100. -/
theorem C1_stomp_priority_witness :
    resolveEnemy true ⟨0, 0, 36, 36⟩ 3 50 ⟨0, 30, 32, 32⟩ = .stomp ∧
    (enemyContactStep true ⟨0, 0, 36, 36⟩ 3 50 ⟨0, 30, 32, 32⟩).removed = true ∧
    (enemyContactStep true ⟨0, 0, 36, 36⟩ 3 50 ⟨0, 30, 32, 32⟩).scoreDelta = 100 ∧
    (enemyContactStep true ⟨0, 0, 36, 36⟩ 3 50 ⟨0, 30, 32, 32⟩).scoreDelta ≠ 200 ∧
    (enemyContactStep true ⟨0, 0, 36, 36⟩ 3 50 ⟨0, 30, 32, 32⟩).damaged = false :=
  C1_stomp_priority true ⟨0, 0, 36, 36⟩ 3 50 ⟨0, 30, 32, 32⟩ rfl (by decide)
    (by norm_num) (by decide)

/-- Claim C9: whenever the invincibility timer is positive (from any
source), a player-enemy overlap that fails the stomp condition removes the
enemy for exactly 200 points and the player takes no damage; the damage
branch of the enemy-contact code is reachable only when the timer is 0. -/
theorem C9_invincibility_kill (alive : Bool) (prect : Rect) (pvy : ℚ)
    (invTimer : ℕ) (erect : Rect) (halive : alive = true)
    (hov : colliderect prect erect = true)
    (hns : ¬(0 < pvy ∧ prect.bottom < erect.centery)) :
    (0 < invTimer →
      resolveEnemy alive prect pvy invTimer erect = .invincibleKill ∧
      (enemyContactStep alive prect pvy invTimer erect).removed = true ∧
      (enemyContactStep alive prect pvy invTimer erect).scoreDelta = 200 ∧
      (enemyContactStep alive prect pvy invTimer erect).damaged = false) ∧
    ((enemyContactStep alive prect pvy invTimer erect).damaged = true →
      invTimer = 0) := by
  subst halive
  constructor
  · intro ht
    have h : resolveEnemy true prect pvy invTimer erect = .invincibleKill := by
      simp [resolveEnemy, hov, hns, ht]
    refine ⟨h, ?_, ?_, ?_⟩ <;> simp [enemyContactStep, h, applyEnemy]
  · intro hdam
    by_contra hnz
    have ht : 0 < invTimer := Nat.pos_of_ne_zero hnz
    have h : resolveEnemy true prect pvy invTimer erect = .invincibleKill := by
      simp [resolveEnemy, hov, hns, ht]
    simp [enemyContactStep, h, applyEnemy] at hdam

/-- Witness for C9: a concrete non-stomp overlap (player not falling) with
the 120-tick damage-flash timer kills the enemy for 200 points. -/
theorem C9_invincibility_kill_witness :
    (0 < 120 →
      resolveEnemy true ⟨0, 0, 36, 36⟩ 0 120 ⟨10, 10, 32, 32⟩ = .invincibleKill ∧
      (enemyContactStep true ⟨0, 0, 36, 36⟩ 0 120 ⟨10, 10, 32, 32⟩).removed = true ∧
      (enemyContactStep true ⟨0, 0, 36, 36⟩ 0 120 ⟨10, 10, 32, 32⟩).scoreDelta = 200 ∧
      (enemyContactStep true ⟨0, 0, 36, 36⟩ 0 120 ⟨10, 10, 32, 32⟩).damaged = false) ∧
    ((enemyContactStep true ⟨0, 0, 36, 36⟩ 0 120 ⟨10, 10, 32, 32⟩).damaged = true →
      120 = 0) :=
  C9_invincibility_kill true ⟨0, 0, 36, 36⟩ 0 120 ⟨10, 10, 32, 32⟩ rfl
    (by decide) (fun h => lt_irrefl 0 h.1)

/-- A concrete state holding MUSHROOM that has fallen below the world's
vertical bound (`py = 800 > SCREEN_HEIGHT`). -/
def mushroomFallState : GameState :=
  { px := 900, py := 800, pw := 36, ph := 48, pvx := 4, pvy := 9,
    powerUp := .MUSHROOM, invincibleTimer := 0, lives := 3, coins := 12,
    score := 700, highScore := 50, worldIndex := 2, mode := .PLAYING }

/-- A concrete state holding FIRE_FLOWER away from the spawn point, with
the powered 36x48 rect. -/
def fireState : GameState :=
  { px := 1234, py := 250, pw := 36, ph := 48, pvx := 6, pvy := 1,
    powerUp := .FIRE_FLOWER, invincibleTimer := 0, lives := 2, coins := 42,
    score := 2500, highScore := 9000, worldIndex := 1, mode := .PLAYING }

/-- A concrete state holding the STAR power-up with 3 lives. -/
def starState : GameState :=
  { px := 500, py := 300, pw := 36, ph := 36, pvx := 2, pvy := 3,
    powerUp := .STAR, invincibleTimer := 90, lives := 3, coins := 7,
    score := 1000, highScore := 0, worldIndex := 0, mode := .PLAYING }

/-- Counterexample to claim C2: `take_damage` on a player holding the STAR
power-up (a non-base power-up) decrements lives from 3 to 2 — STAR is not
in the list of power-ups that `take_damage` strips, so damage with STAR
takes the life-loss branch, contradicting the claim that lives is not
decremented for any non-base power-up. -/
theorem C2_counterexample :
    starState.powerUp = .STAR ∧ starState.powerUp ≠ .NONE ∧
    starState.lives = 3 ∧ (take_damage starState).lives = 2 ∧
    (take_damage starState).lives ≠ starState.lives := by
  refine ⟨rfl, by decide, rfl, by decide, by decide⟩

/-- Claim C2 as amended: damage applied while holding MUSHROOM, FIRE_FLOWER
or ICE_FLOWER strips the power-up to NONE, grants a 120-tick invincibility
window and leaves lives unchanged; damage while holding STAR instead takes
the base-form branch and decrements lives by one; falling below the world's
vertical bound runs exactly the damage routine. -/
theorem C2_amended (g : GameState) :
    ((g.powerUp = .MUSHROOM ∨ g.powerUp = .FIRE_FLOWER ∨ g.powerUp = .ICE_FLOWER) →
      (take_damage g).powerUp = .NONE ∧
      (take_damage g).invincibleTimer = 120 ∧
      (take_damage g).lives = g.lives) ∧
    (g.powerUp = .STAR → (take_damage g).lives = g.lives - 1) ∧
    (SCREEN_HEIGHT < g.py → fall_check g = take_damage g) := by
  refine ⟨?_, ?_, ?_⟩
  · intro hp
    simp [take_damage, hp, create_character_sprite, spriteWidth, spriteHeight]
  · intro hstar
    have hnp : ¬(g.powerUp = .MUSHROOM ∨ g.powerUp = .FIRE_FLOWER ∨
        g.powerUp = .ICE_FLOWER) := by
      rw [hstar]; decide
    rw [take_damage, if_neg hnp]
    show (if g.lives - 1 ≤ 0 then game_over _ else respawn _).lives = g.lives - 1
    split
    · simp [game_over]
    · simp [respawn, create_character_sprite, spriteWidth, spriteHeight]
  · intro hfall
    rw [fall_check, if_pos hfall]

/-- Witness for C2 (amended): a concrete MUSHROOM holder below the world's
vertical bound: damage strips to NONE, sets the timer to 120 and keeps
lives, and the fall check invokes the damage routine. -/
theorem C2_amended_witness :
    (take_damage mushroomFallState).powerUp = .NONE ∧
    (take_damage mushroomFallState).invincibleTimer = 120 ∧
    (take_damage mushroomFallState).lives = mushroomFallState.lives ∧
    fall_check mushroomFallState = take_damage mushroomFallState :=
  ⟨((C2_amended mushroomFallState).1 (Or.inl rfl)).1,
   ((C2_amended mushroomFallState).1 (Or.inl rfl)).2.1,
   ((C2_amended mushroomFallState).1 (Or.inl rfl)).2.2,
   (C2_amended mushroomFallState).2.2 (by decide)⟩

/-- Counterexample to claim C10: the source's powered damage branch calls
`create_character_sprite`, which rebuilds the rect from the powered 36x48
size to 36x36 preserving `bottom` and `centerx` — so `rect.y` increases by
12 on powered damage: at a concrete FIRE_FLOWER holder with `py = 250`,
damage leaves `py = 262`, contradicting the claim that the position is
unchanged. -/
theorem C10_counterexample :
    fireState.powerUp = .FIRE_FLOWER ∧
    fireState.py = 250 ∧ fireState.ph = 48 ∧
    (take_damage fireState).py = 262 ∧
    (take_damage fireState).py ≠ fireState.py := by
  refine ⟨rfl, rfl, rfl, by decide, by decide⟩

/-- Claim C10 as amended: powered damage (MUSHROOM, FIRE_FLOWER or
ICE_FLOWER) changes only the power-up (to NONE), the invincibility timer
(to 120) and the player's rect through the sprite rebuild: the rect is
resized to 36x36 with `centerx` and `bottom` preserved, so `rect.y` grows
by the height difference (exactly 12 from the powered 48-high rect) while
`x` (at the common width 36) and the bottom stay fixed; velocity, lives,
coins, score, high score, world index and mode are unchanged, and the
player is not moved to the spawn point. -/
theorem C10_powered_damage_frame (g : GameState)
    (hp : g.powerUp = .MUSHROOM ∨ g.powerUp = .FIRE_FLOWER ∨
      g.powerUp = .ICE_FLOWER) :
    take_damage g =
      create_character_sprite { g with powerUp := .NONE, invincibleTimer := 120 } ∧
    (take_damage g).px = g.px + g.pw / 2 - 18 ∧
    (take_damage g).py = g.py + g.ph - 36 ∧
    (take_damage g).pw = 36 ∧ (take_damage g).ph = 36 ∧
    (take_damage g).py + (take_damage g).ph = g.py + g.ph ∧
    (g.pw = 36 → (take_damage g).px = g.px) ∧
    (g.ph = 48 → (take_damage g).py = g.py + 12) ∧
    (take_damage g).pvx = g.pvx ∧ (take_damage g).pvy = g.pvy ∧
    (take_damage g).lives = g.lives ∧ (take_damage g).coins = g.coins ∧
    (take_damage g).score = g.score ∧ (take_damage g).highScore = g.highScore ∧
    (take_damage g).worldIndex = g.worldIndex ∧ (take_damage g).mode = g.mode ∧
    (take_damage g).powerUp = .NONE ∧ (take_damage g).invincibleTimer = 120 := by
  have h : take_damage g =
      create_character_sprite { g with powerUp := .NONE, invincibleTimer := 120 } := by
    rw [take_damage, if_pos hp]
  rw [h]
  refine ⟨rfl, ?_, ?_, ?_, ?_, ?_, ?_, ?_, ?_, ?_, ?_, ?_, ?_, ?_, ?_, ?_, ?_, ?_⟩ <;>
    simp [create_character_sprite, spriteWidth, spriteHeight] <;> omega

/-- Witness for C10 (amended): the frame conditions at a concrete
FIRE_FLOWER holder with the powered 36x48 rect away from the spawn
point. -/
theorem C10_powered_damage_frame_witness :
    take_damage fireState =
      create_character_sprite
        { fireState with powerUp := .NONE, invincibleTimer := 120 } ∧
    (take_damage fireState).px = fireState.px + fireState.pw / 2 - 18 ∧
    (take_damage fireState).py = fireState.py + fireState.ph - 36 ∧
    (take_damage fireState).pw = 36 ∧ (take_damage fireState).ph = 36 ∧
    (take_damage fireState).py + (take_damage fireState).ph =
      fireState.py + fireState.ph ∧
    (fireState.pw = 36 → (take_damage fireState).px = fireState.px) ∧
    (fireState.ph = 48 → (take_damage fireState).py = fireState.py + 12) ∧
    (take_damage fireState).pvx = fireState.pvx ∧
    (take_damage fireState).pvy = fireState.pvy ∧
    (take_damage fireState).lives = fireState.lives ∧
    (take_damage fireState).coins = fireState.coins ∧
    (take_damage fireState).score = fireState.score ∧
    (take_damage fireState).highScore = fireState.highScore ∧
    (take_damage fireState).worldIndex = fireState.worldIndex ∧
    (take_damage fireState).mode = fireState.mode ∧
    (take_damage fireState).powerUp = .NONE ∧
    (take_damage fireState).invincibleTimer = 120 :=
  C10_powered_damage_frame fireState (Or.inr (Or.inl rfl))

/-- Claim C3: every coin collection adds 50 to the score; the counter goes
from 99 back to 0 with a life gained, and otherwise increments by one with
lives unchanged; the counter stays in 0..99. -/
theorem C3_coin_wraparound (coins : ℕ) (lives score : ℤ) (h : coins ≤ 99) :
    (collect_coin coins lives score).2.2 = score + 50 ∧
    (collect_coin coins lives score).1 = (if coins = 99 then 0 else coins + 1) ∧
    (collect_coin coins lives score).2.1 =
      lives + (if coins = 99 then 1 else 0) ∧
    (collect_coin coins lives score).1 ≤ 99 := by
  rcases eq_or_ne coins 99 with h99 | h99
  · subst h99
    refine ⟨?_, ?_, ?_, ?_⟩ <;> simp [collect_coin]
  · have hlt : ¬(100 ≤ coins + 1) := by omega
    refine ⟨?_, ?_, ?_, ?_⟩ <;> simp [collect_coin, hlt, h99] <;> omega

/-- Witness for C3: collecting the 100th coin (counter at 99) resets the
counter and grants a life; collecting the 99th (counter at 98) does not. -/
theorem C3_coin_wraparound_witness :
    ((collect_coin 99 3 100).2.2 = 100 + 50 ∧
     (collect_coin 99 3 100).1 = (if 99 = 99 then 0 else 99 + 1) ∧
     (collect_coin 99 3 100).2.1 = 3 + (if 99 = 99 then 1 else 0) ∧
     (collect_coin 99 3 100).1 ≤ 99) ∧
    ((collect_coin 98 3 100).1 = (if 98 = 99 then 0 else 98 + 1) ∧
     (collect_coin 98 3 100).2.1 = 3 + (if 98 = 99 then 1 else 0)) :=
  ⟨C3_coin_wraparound 99 3 100 (by decide),
   ⟨(C3_coin_wraparound 98 3 100 (by decide)).2.1,
    (C3_coin_wraparound 98 3 100 (by decide)).2.2.1⟩⟩

/-- The bounce counter after `n` bounces is the initial counter plus `n`,
and the maximum is unchanged. -/
theorem bouncesAfter_bounces (f : Fireball) (n : ℕ) :
    (bouncesAfter f n).bounces = f.bounces + n ∧
    (bouncesAfter f n).maxBounces = f.maxBounces := by
  induction n with
  | zero => exact ⟨rfl, rfl⟩
  | succ n ih =>
    refine ⟨?_, ?_⟩ <;> simp [bouncesAfter, bounceStep, ih.1, ih.2] <;> omega

/-- Claim C4: every projectile starts with bounce counter 0 and maximum 3;
each platform bounce sets `vy = -8` and increments the counter; the removal
flag is raised exactly when the counter reaches the maximum, so a fresh
projectile survives its first two bounces and is removed on the third —
never reaching a fourth; a projectile is also removed when its x position
leaves the world's horizontal bounds. -/
theorem C4_fireball_lifetime :
    (∀ x y d ice, (Fireball.mkNew x y d ice).bounces = 0 ∧
                  (Fireball.mkNew x y d ice).maxBounces = 3) ∧
    (∀ f, (bounceStep f).1.vy = -8 ∧
          (bounceStep f).1.bounces = f.bounces + 1 ∧
          ((bounceStep f).2 = true ↔ f.maxBounces ≤ f.bounces + 1)) ∧
    (∀ x y d ice n,
      removedOnBounce (Fireball.mkNew x y d ice) n = true ↔ 2 ≤ n) ∧
    (∀ x w, fireballOffscreen x w = true ↔ (x < 0 ∨ w < x)) := by
  refine ⟨fun x y d ice => ⟨rfl, rfl⟩, fun f => ⟨rfl, rfl, ?_⟩, ?_, ?_⟩
  · simp [bounceStep]
  · intro x y d ice n
    have hb := bouncesAfter_bounces (Fireball.mkNew x y d ice) n
    have h0 : (Fireball.mkNew x y d ice).bounces = 0 := rfl
    have h3 : (Fireball.mkNew x y d ice).maxBounces = 3 := rfl
    rw [removedOnBounce]
    simp only [bounceStep, hb.1, hb.2, h0, h3, decide_eq_true_eq]
    omega
  · intro x w
    simp [fireballOffscreen]

/-- Witness for C4: a fresh fireball is not removed on bounces 1 and 2 and
is removed on bounce 3. -/
theorem C4_fireball_lifetime_witness :
    (¬ removedOnBounce (Fireball.mkNew 0 0 1 false) 0 = true) ∧
    (¬ removedOnBounce (Fireball.mkNew 0 0 1 false) 1 = true) ∧
    removedOnBounce (Fireball.mkNew 0 0 1 false) 2 = true :=
  ⟨fun h => by
      have := (C4_fireball_lifetime.2.2.1 0 0 1 false 0).mp h
      omega,
   fun h => by
      have := (C4_fireball_lifetime.2.2.1 0 0 1 false 1).mp h
      omega,
   (C4_fireball_lifetime.2.2.1 0 0 1 false 2).mpr (by omega)⟩

/-- Claim C5: completing the level of 0-based world index `i` adds exactly
`1000 * (i + 1)` to the score, then advances to the next world (for
`i < 4`, the last index being 4) keeping the mode, or transitions to the
terminal VICTORY mode recording the high score as the maximum of the
previous high score and the current (post-bonus) score. -/
theorem C5_level_completion (g : GameState) :
    (complete_level g).score = g.score + 1000 * ((g.worldIndex : ℤ) + 1) ∧
    (g.worldIndex < NUM_WORLDS - 1 →
      (complete_level g).worldIndex = g.worldIndex + 1 ∧
      (complete_level g).mode = g.mode) ∧
    (g.worldIndex = NUM_WORLDS - 1 →
      (complete_level g).mode = .VICTORY ∧
      (complete_level g).highScore =
        max g.highScore (g.score + 1000 * ((g.worldIndex : ℤ) + 1))) := by
  refine ⟨?_, ?_, ?_⟩
  · rw [complete_level]
    split
    · simp [start_world]
    · simp [victory]
  · intro hlt
    rw [complete_level, if_pos hlt]
    exact ⟨rfl, rfl⟩
  · intro heq
    have hnlt : ¬(g.worldIndex < NUM_WORLDS - 1) := by omega
    rw [complete_level, if_neg hnlt]
    exact ⟨rfl, rfl⟩

/-- A concrete state about to complete the last world (index 4). -/
def lastWorldState : GameState :=
  { px := 4000, py := 300, pw := 36, ph := 36, pvx := 0, pvy := 0,
    powerUp := .NONE, invincibleTimer := 0, lives := 3, coins := 5,
    score := 8000, highScore := 11000, worldIndex := 4, mode := .PLAYING }

/-- Witness for C5: completing world index 4 (the last) adds 5000 to the
score and transitions to VICTORY, recording the high score. -/
theorem C5_level_completion_witness :
    (complete_level lastWorldState).score =
      lastWorldState.score + 1000 * ((lastWorldState.worldIndex : ℤ) + 1) ∧
    (complete_level lastWorldState).mode = .VICTORY ∧
    (complete_level lastWorldState).highScore =
      max lastWorldState.highScore
        (lastWorldState.score + 1000 * ((lastWorldState.worldIndex : ℤ) + 1)) :=
  ⟨(C5_level_completion lastWorldState).1,
   ((C5_level_completion lastWorldState).2.2 (by decide)).1,
   ((C5_level_completion lastWorldState).2.2 (by decide)).2⟩

/-- Coins placed by `n` rounds equal `n` plus four per arc round. -/
theorem coinsPlaced_eq (n : ℕ) (choice : ℕ → Bool) :
    coinsPlaced n choice = n + 4 * arcRounds n choice := by
  induction n with
  | zero => rfl
  | succ n ih =>
    rw [coinsPlaced, arcRounds, ih]
    split <;> omega

/-- The number of arc rounds is at most the number of rounds. -/
theorem arcRounds_le (n : ℕ) (choice : ℕ → Bool) :
    arcRounds n choice ≤ n := by
  induction n with
  | zero => exact le_refl 0
  | succ n ih =>
    rw [arcRounds]
    split <;> omega

/-- Counterexample to claim C8: with world number 1 and every draw choosing
an arc, generation places 200 coins, not the claimed `30 + 10 * 1 = 40` —
the loop `for i in range(coin_count)` runs `30 + 10 * w` placement rounds,
and an arc round adds 5 coins. -/
theorem C8_counterexample :
    totalCoins 1 (fun _ => true) = 200 ∧
    (30 + 1 * 10 : ℕ) = 40 ∧
    totalCoins 1 (fun _ => true) ≠ 30 + 1 * 10 := by
  refine ⟨by decide, rfl, by decide⟩

/-- Claim C8 as amended: for 1-based world number `w`, generation performs
exactly `30 + 10 * w` placement rounds, each placing either a 5-coin arc or
a single scattered coin; the number of coins placed is
`(30 + 10 * w) + 4 * (number of arc rounds)` — so it lies between
`30 + 10 * w` and `5 * (30 + 10 * w)` and equals `30 + 10 * w` exactly when
no round chose an arc. -/
theorem C8_amended (worldNum : ℕ) (choice : ℕ → Bool) :
    totalCoins worldNum choice =
      coinRounds worldNum + 4 * arcRounds (coinRounds worldNum) choice ∧
    coinRounds worldNum = 30 + worldNum * 10 ∧
    coinRounds worldNum ≤ totalCoins worldNum choice ∧
    totalCoins worldNum choice ≤ 5 * coinRounds worldNum ∧
    (arcRounds (coinRounds worldNum) choice = 0 →
      totalCoins worldNum choice = 30 + worldNum * 10) := by
  have h := coinsPlaced_eq (coinRounds worldNum) choice
  have hle := arcRounds_le (coinRounds worldNum) choice
  refine ⟨h, rfl, ?_, ?_, ?_⟩
  · rw [totalCoins, h]; omega
  · rw [totalCoins, h]; omega
  · intro h0
    rw [totalCoins, h, h0, coinRounds]
    omega

/-- Witness for C8 (amended): with every draw scattering a single coin,
world number 1 places exactly `30 + 1 * 10 = 40` coins. -/
theorem C8_amended_witness :
    totalCoins 1 (fun _ => false) = 30 + 1 * 10 :=
  (C8_amended 1 (fun _ => false)).2.2.2.2 (by decide)

/-- The first-order smoothing step followed by a clamp to `[0, T]` keeps
the result between the previous offset `c` and the target `t`, and never
farther from `t` than `c` was, provided `c` already lies in `[0, T]`. -/
theorem camera_step_between (c t T : ℚ) (h0 : 0 ≤ c) (hcT : c ≤ T) :
    min c t ≤ max 0 (min (c + (t - c) * (1 / 10)) T) ∧
    max 0 (min (c + (t - c) * (1 / 10)) T) ≤ max c t ∧
    |t - max 0 (min (c + (t - c) * (1 / 10)) T)| ≤ |t - c| := by
  rcases le_total c t with hct | htc
  · have h1 : c ≤ c + (t - c) * (1 / 10) := by linarith
    have h2 : c + (t - c) * (1 / 10) ≤ t := by linarith
    have hlo : c ≤ max 0 (min (c + (t - c) * (1 / 10)) T) :=
      le_trans (le_min h1 hcT) (le_max_right 0 _)
    have hhi : max 0 (min (c + (t - c) * (1 / 10)) T) ≤ t :=
      max_le (le_trans h0 hct) (le_trans (min_le_left _ T) h2)
    refine ⟨le_trans (min_le_left c t) hlo,
      le_trans hhi (le_max_right c t), ?_⟩
    rw [abs_of_nonneg (by linarith), abs_of_nonneg (by linarith : (0 : ℚ) ≤ t - c)]
    linarith
  · have h1 : t ≤ c + (t - c) * (1 / 10) := by linarith
    have h2 : c + (t - c) * (1 / 10) ≤ c := by linarith
    have hminT : min (c + (t - c) * (1 / 10)) T = c + (t - c) * (1 / 10) :=
      min_eq_left (le_trans h2 hcT)
    have hlo : t ≤ max 0 (min (c + (t - c) * (1 / 10)) T) := by
      rw [hminT]; exact le_trans h1 (le_max_right 0 _)
    have hhi : max 0 (min (c + (t - c) * (1 / 10)) T) ≤ c := by
      rw [hminT]; exact max_le h0 h2
    refine ⟨le_trans (min_le_right c t) hlo,
      le_trans hhi (le_max_left c t), ?_⟩
    rw [abs_of_nonpos (by linarith), abs_of_nonpos (by linarith : t - c ≤ 0)]
    linarith

/-- Claim C6: one camera update always lands in
`[0, level_width - SCREEN_WIDTH]`; moreover, starting from an offset already
in that interval, the update moves the offset toward the target
`player_x - SCREEN_WIDTH / 2` without overshooting: it stays between the
old offset and the target and gets no farther from the target. -/
theorem C6_camera_clamp (wn : ℕ) (camera playerX : ℚ) :
    (0 ≤ update_camera wn camera playerX ∧
     update_camera wn camera playerX ≤ levelWidth wn - (SCREEN_WIDTH : ℚ)) ∧
    (0 ≤ camera → camera ≤ levelWidth wn - (SCREEN_WIDTH : ℚ) →
      min camera (playerX - (SCREEN_WIDTH : ℚ) / 2) ≤
        update_camera wn camera playerX ∧
      update_camera wn camera playerX ≤
        max camera (playerX - (SCREEN_WIDTH : ℚ) / 2) ∧
      |playerX - (SCREEN_WIDTH : ℚ) / 2 - update_camera wn camera playerX| ≤
        |playerX - (SCREEN_WIDTH : ℚ) / 2 - camera|) := by
  have hc : update_camera wn camera playerX =
      max 0 (min (camera + ((playerX - (SCREEN_WIDTH : ℚ) / 2) - camera) * (1 / 10))
        (levelWidth wn - (SCREEN_WIDTH : ℚ))) := rfl
  have hT0 : (0 : ℚ) ≤ levelWidth wn - (SCREEN_WIDTH : ℚ) := by
    have h1 : (0 : ℚ) ≤ (wn : ℚ) := Nat.cast_nonneg wn
    rw [levelWidth]
    norm_num [SCREEN_WIDTH]
    linarith
  refine ⟨⟨?_, ?_⟩, ?_⟩
  · rw [hc]; exact le_max_left 0 _
  · rw [hc]; exact max_le hT0 (min_le_right _ _)
  · intro h0 hcT
    rw [hc]
    exact camera_step_between camera (playerX - (SCREEN_WIDTH : ℚ) / 2)
      (levelWidth wn - (SCREEN_WIDTH : ℚ)) h0 hcT

/-- Witness for C6: world number 1, camera at 0, player at x = 1000. -/
theorem C6_camera_clamp_witness :
    (0 ≤ update_camera 1 0 1000 ∧
     update_camera 1 0 1000 ≤ levelWidth 1 - (SCREEN_WIDTH : ℚ)) ∧
    (min 0 (1000 - (SCREEN_WIDTH : ℚ) / 2) ≤ update_camera 1 0 1000 ∧
     update_camera 1 0 1000 ≤ max 0 (1000 - (SCREEN_WIDTH : ℚ) / 2) ∧
     |1000 - (SCREEN_WIDTH : ℚ) / 2 - update_camera 1 0 1000| ≤
       |1000 - (SCREEN_WIDTH : ℚ) / 2 - 0|) :=
  ⟨(C6_camera_clamp 1 0 1000).1,
   (C6_camera_clamp 1 0 1000).2 (le_refl 0)
     (by norm_num [levelWidth, SCREEN_WIDTH])⟩

/-- `ratTrunc` is the identity on integer values. -/
theorem ratTrunc_intCast (n : ℤ) : ratTrunc (n : ℚ) = n := by
  rw [ratTrunc]
  split
  · rw [← Int.cast_neg, Int.floor_intCast, neg_neg]
  · rw [Int.floor_intCast]

/-- At a whole-number speed `n` the truncation is exact, so
`AnimatedPlatform.update` is plain integer stepping by `n * direction`. -/
theorem update_int_speed (p : Plat) (n : ℤ) (hn : p.moveSpeed = (n : ℚ)) :
    p.update =
      (if p.moveRange < |p.pos + n * p.direction - p.startPos|
        then { p with pos := p.pos + n * p.direction, direction := -p.direction }
        else { p with pos := p.pos + n * p.direction }) := by
  have hpos1 : ratTrunc ((p.pos : ℚ) + p.moveSpeed * (p.direction : ℚ)) =
      p.pos + n * p.direction := by
    rw [hn,
      show ((p.pos : ℚ) + (n : ℚ) * (p.direction : ℚ))
          = ((p.pos + n * p.direction : ℤ) : ℚ) by push_cast; ring]
    exact ratTrunc_intCast _
  have h0 : p.update =
      (if p.moveRange <
          |ratTrunc ((p.pos : ℚ) + p.moveSpeed * (p.direction : ℚ)) - p.startPos|
        then { p with
                pos := ratTrunc ((p.pos : ℚ) + p.moveSpeed * (p.direction : ℚ)),
                direction := -p.direction }
        else { p with
                pos := ratTrunc ((p.pos : ℚ) + p.moveSpeed * (p.direction : ℚ)) }) :=
    rfl
  rw [h0, hpos1]

/-- The invariant maintained by `AnimatedPlatform.update` at whole-number
speed `n`: the position is within one step (`n`) of
`[start - range, start + range]`, the direction is ±1, and whenever the
position is strictly beyond an extreme the direction points back toward
the start. -/
def PlatInv (p : Plat) (n : ℤ) : Prop :=
  p.moveSpeed = (n : ℚ) ∧
  (p.direction = 1 ∨ p.direction = -1) ∧
  |p.pos - p.startPos| ≤ p.moveRange + n ∧
  (p.moveRange < p.pos - p.startPos → p.direction = -1) ∧
  (p.pos - p.startPos < -p.moveRange → p.direction = 1)

set_option maxRecDepth 10000 in
set_option maxHeartbeats 1000000 in
/-- Counterexample to claim C7, in two parts.  First, `AnimatedPlatform.update`
moves first and only then reverses when `abs(pos - start) > move_range`, so
even at the exact whole-number speed 3 the platform with start 0 and range
100 reaches position 102 after 34 ticks — strictly beyond
`start + range`.  Second, at the fractional speed 2.5 the integer
truncation makes up-steps 2 and down-steps 3 (at positive coordinates), and
the platform with start 300 and range 104 reaches position 193 after 124
ticks — `start - 107`, beyond `range` and even beyond `range + speed`. -/
theorem C7_counterexample :
    ((platIter 34).pos = 102 ∧
     (platIter 34).startPos = 0 ∧
     (platIter 34).moveRange = 100 ∧
     (platIter 34).startPos + (platIter 34).moveRange < (platIter 34).pos) ∧
    ((fracIter 124).pos = 193 ∧
     (fracIter 124).startPos = 300 ∧
     (fracIter 124).moveRange = 104 ∧
     fracPlat.moveSpeed = 5 / 2 ∧
     (fracIter 124).pos < (fracIter 124).startPos - (fracIter 124).moveRange ∧
     ((fracIter 124).pos : ℚ) < (300 : ℚ) - (104 + 5 / 2)) := by
  constructor
  · norm_num [platIter, Plat.update, examplePlat, ratTrunc]
  · norm_num [fracIter, Plat.update, fracPlat, ratTrunc]

/-- Claim C7 as amended: modelling the integer rect coordinates, for a
kinematic platform moving at a whole-number speed `n ≥ 0` the update is
exact integer stepping and the position stays within
`[start - (range + n), start + (range + n)]`: the platform oscillates,
reversing direction on the tick its position passes strictly beyond
`start ± range`, so it can exceed those extremes by at most one step.
(For fractional speeds the truncation makes up- and down-steps unequal —
`floor(speed)` up and `ceil(speed)` down at positive coordinates — and the
position can leave even the widened band, as the counterexample's second
run shows, so the bound is stated for whole-number speeds.)  Formally,
`PlatInv` (which contains the widened bound) is preserved by every update,
and the update leaves start, range and speed unchanged. -/
theorem C7_platform_oscillation (p : Plat) (n : ℤ) (hn : 0 ≤ n)
    (hr : 0 ≤ p.moveRange) (h : PlatInv p n) :
    PlatInv p.update n ∧
    |p.update.pos - p.update.startPos| ≤ p.update.moveRange + n ∧
    p.update.startPos = p.startPos ∧
    p.update.moveRange = p.moveRange ∧
    p.update.moveSpeed = p.moveSpeed := by
  obtain ⟨hs, hd, hb, hpos, hneg⟩ := h
  have hb1 := (abs_le.mp hb).1
  have hb2 := (abs_le.mp hb).2
  rw [update_int_speed p n hs]
  by_cases hcond : p.moveRange < |p.pos + n * p.direction - p.startPos|
  · rw [if_pos hcond]
    simp only [PlatInv]
    rcases hd with h1 | h1 <;> rw [h1]
    · have hle : p.pos - p.startPos ≤ p.moveRange := by
        by_contra hh
        push_neg at hh
        have h2 := hpos hh
        rw [h1] at h2
        norm_num at h2
      refine ⟨⟨hs, Or.inr rfl, ?_, fun _ => rfl, fun hh => ?_⟩, ?_,
        trivial, trivial, trivial⟩
      · rw [abs_le]; exact ⟨by linarith, by linarith⟩
      · exfalso; linarith
      · rw [abs_le]; exact ⟨by linarith, by linarith⟩
    · have hge : -p.moveRange ≤ p.pos - p.startPos := by
        by_contra hh
        push_neg at hh
        have h2 := hneg hh
        rw [h1] at h2
        norm_num at h2
      refine ⟨⟨hs, Or.inl (by norm_num), ?_, fun hh => ?_, fun _ => by norm_num⟩, ?_,
        trivial, trivial, trivial⟩
      · rw [abs_le]; exact ⟨by linarith, by linarith⟩
      · exfalso; linarith
      · rw [abs_le]; exact ⟨by linarith, by linarith⟩
  · rw [if_neg hcond]
    have hle2 := abs_le.mp (not_lt.mp hcond)
    simp only [PlatInv]
    rcases hd with h1 | h1 <;> rw [h1] at hle2 ⊢
    · refine ⟨⟨hs, Or.inl rfl, ?_, fun hh => ?_, fun hh => ?_⟩, ?_,
        trivial, trivial, trivial⟩
      · rw [abs_le]; exact ⟨by linarith [hle2.1], by linarith [hle2.2]⟩
      · exfalso; linarith [hle2.2]
      · exfalso; linarith [hle2.1]
      · rw [abs_le]; exact ⟨by linarith [hle2.1], by linarith [hle2.2]⟩
    · refine ⟨⟨hs, Or.inr rfl, ?_, fun hh => ?_, fun hh => ?_⟩, ?_,
        trivial, trivial, trivial⟩
      · rw [abs_le]; exact ⟨by linarith [hle2.1], by linarith [hle2.2]⟩
      · exfalso; linarith [hle2.2]
      · exfalso; linarith [hle2.1]
      · rw [abs_le]; exact ⟨by linarith [hle2.1], by linarith [hle2.2]⟩

/-- Witness for C7 (amended): the invariant holds at the freshly
constructed whole-speed example platform and is preserved by its update. -/
theorem C7_platform_oscillation_witness :
    PlatInv examplePlat.update 3 ∧
    |examplePlat.update.pos - examplePlat.update.startPos| ≤
      examplePlat.update.moveRange + 3 ∧
    examplePlat.update.startPos = examplePlat.startPos ∧
    examplePlat.update.moveRange = examplePlat.moveRange ∧
    examplePlat.update.moveSpeed = examplePlat.moveSpeed :=
  C7_platform_oscillation examplePlat 3 (by norm_num)
    (by norm_num [examplePlat])
    (by refine ⟨by norm_num [examplePlat], Or.inl rfl, ?_, ?_, ?_⟩ <;>
      norm_num [examplePlat])

end UltraMario4k
